import Mathlib

/-!
Shallow embedding of the run-history component of
`src/www/scripts/codecheckerviewer/RunHistory.js` (CodeChecker web viewer):
the day-grouping of run-history records (`renderRunHistoryTable`, lines
48-59), the filter projection of a clicked record (`onRunHistoryClick`,
lines 113-140) and the date serialisation helper (`_formatDate`, lines
142-154), together with theorems settling the specification claims.

JavaScript numbers that can be `NaN` (the field getters of an invalid
`Date`) are modelled by `JSNum`; a JS `Date` value is modelled by
`Option DateTime` (`none` is an Invalid Date).  Effects on the external
filter subsystem and navigation collaborator are modelled as a trace of
`FilterEvent`s; a JS `TypeError` thrown by calling a method of an absent
capability is modelled with `Except.error`.
-/

/-- A run-history record as supplied by the history-fetch service. -/
structure RunHistoryRecord where
  runId : Nat
  runName : String
  time : String
  user : String
  versionTag : Option String
  checkCommand : Option String
deriving DecidableEq

/-- The components of a successfully parsed JS `Date`.  As in JS, `month`
is the zero-based month index; `day` is the day of month. -/
structure DateTime where
  year : Nat
  month : Nat
  day : Nat
  hours : Nat
  minutes : Nat
  seconds : Nat
  milliseconds : Nat
deriving DecidableEq

/-- A JS number that is either `NaN` or an ordinary (here always
non-negative) number: the result type of the `Date` field getters. -/
inductive JSNum where
  | nan : JSNum
  | num : Nat → JSNum
deriving DecidableEq

/-- JS addition of a plain number to a possibly-`NaN` number. -/
def JSNum.addNum : JSNum → Nat → JSNum
  | .nan, _ => .nan
  | .num n, m => .num (n + m)

/-- JS comparison `x > m`: false whenever `x` is `NaN`. -/
def JSNum.gtNum : JSNum → Nat → Bool
  | .nan, _ => false
  | .num n, m => decide (m < n)

/-- JS string conversion of a number, as performed by `Array.join` and by
string concatenation: `NaN` renders as the literal text `NaN`. -/
def JSNum.render : JSNum → String
  | .nan => "NaN"
  | .num n => Nat.repr n

/-- A JS `Date` object: `none` models an Invalid Date (all getters `NaN`). -/
abbrev JSDate := Option DateTime

def JSDate.getFullYear : JSDate → JSNum
  | some d => .num d.year
  | none => .nan

def JSDate.getMonth : JSDate → JSNum
  | some d => .num d.month
  | none => .nan

def JSDate.getDate : JSDate → JSNum
  | some d => .num d.day
  | none => .nan

def JSDate.getHours : JSDate → JSNum
  | some d => .num d.hours
  | none => .nan

def JSDate.getMinutes : JSDate → JSNum
  | some d => .num d.minutes
  | none => .nan

def JSDate.getSeconds : JSDate → JSNum
  | some d => .num d.seconds
  | none => .nan

def JSDate.getMilliseconds : JSDate → JSNum
  | some d => .num d.milliseconds
  | none => .nan

/-- Numeric value of a decimal digit character, `none` otherwise. -/
def digitVal (c : Char) : Option Nat :=
  if '0' ≤ c ∧ c ≤ '9' then some (c.toNat - '0'.toNat) else none

/-- Read exactly two decimal digits from the front of the character list. -/
def parse2 : List Char → Option (Nat × List Char)
  | c1 :: c2 :: rest =>
    match digitVal c1, digitVal c2 with
    | some a, some b => some (10 * a + b, rest)
    | _, _ => none
  | _ => none

/-- Read exactly three decimal digits (a millisecond field). -/
def parse3 : List Char → Option (Nat × List Char)
  | c1 :: c2 :: c3 :: rest =>
    match digitVal c1, digitVal c2, digitVal c3 with
    | some a, some b, some c => some (100 * a + 10 * b + c, rest)
    | _, _, _ => none
  | _ => none

/-- Read exactly four decimal digits (a year field). -/
def parse4 : List Char → Option (Nat × List Char)
  | c1 :: c2 :: c3 :: c4 :: rest =>
    match digitVal c1, digitVal c2, digitVal c3, digitVal c4 with
    | some a, some b, some c, some d => some (1000 * a + 100 * b + 10 * c + d, rest)
    | _, _, _, _ => none
  | _ => none

/-- Consume one expected character. -/
def expectCh (ch : Char) : List Char → Option (List Char)
  | c :: rest => if c = ch then some rest else none
  | [] => none

/-- Optional trailing millisecond part: either nothing (0 ms) or a dot
followed by exactly three digits ending the string. -/
def parseMs : List Char → Option Nat
  | [] => some 0
  | '.' :: rest =>
    match parse3 rest with
    | some (ms, []) => some ms
    | _ => none
  | _ => none

/-- JS `new Date(s)` parsing, restricted to the strict date-time forms this
component feeds it: `YYYY-MM-DDTHH:MM:SS` with an optional `.sss`
millisecond suffix.  Any other input yields an Invalid Date (`none`). -/
def parseDateTime (s : String) : Option DateTime := do
  let l := s.data
  let (y, l) ← parse4 l
  let l ← expectCh '-' l
  let (mo, l) ← parse2 l
  let l ← expectCh '-' l
  let (d, l) ← parse2 l
  let l ← expectCh 'T' l
  let (h, l) ← parse2 l
  let l ← expectCh ':' l
  let (mi, l) ← parse2 l
  let l ← expectCh ':' l
  let (se, l) ← parse2 l
  let ms ← parseMs l
  if 1 ≤ mo ∧ mo ≤ 12 ∧ 1 ≤ d ∧ d ≤ 31 ∧ h ≤ 23 ∧ mi ≤ 59 ∧ se ≤ 59 then
    some { year := y, month := mo - 1, day := d, hours := h,
           minutes := mi, seconds := se, milliseconds := ms }
  else
    none

/-- `new Date(s)` of the source: parse, Invalid Date on failure. -/
def newDate (s : String) : JSDate := parseDateTime s

/-- The source's `time.replace(/ /g, 'T')`: replace every space character
by `T`, leaving every other character unchanged. -/
def jsReplaceSpacesT (s : String) : String :=
  ⟨s.data.map (fun c => if c = ' ' then 'T' else c)⟩

/-- Modelled from the spec: `util.getMonthName` of the `codechecker/util`
module (whose source is not part of this repository snapshot) maps a
zero-based month index to the month name in the display locale; an invalid
index (`NaN` or out of range) renders the way JS `undefined` does in
string concatenation. -/
def getMonthName : JSNum → String
  | .num n => (["January", "February", "March", "April", "May", "June",
      "July", "August", "September", "October", "November",
      "December"].get? n).getD "undefined"
  | .nan => "undefined"

/-- The day-label computed by `renderRunHistoryTable`:
`date.getDate() + ' ' + util.getMonthName(date.getMonth()) + ', ' +
date.getFullYear()`. -/
def groupDateKey (date : JSDate) : String :=
  (JSDate.getDate date).render ++ " " ++ getMonthName (JSDate.getMonth date)
    ++ ", " ++ (JSDate.getFullYear date).render

/-- An insertion-ordered mapping from day-label to records, the model of
the JS object `historyGroupByDate` (string keys iterate in insertion
order). -/
abbrev Buckets := List (String × List RunHistoryRecord)

/-- Append a record to the bucket of key `k`, creating the bucket at the
end on first occurrence — exactly what the loop body
`if (!historyGroupByDate[groupDate]) historyGroupByDate[groupDate] = [];
historyGroupByDate[groupDate].push(data);` does. -/
def insertBucket : Buckets → String → RunHistoryRecord → Buckets
  | [], k, r => [(k, [r])]
  | (k0, rs) :: rest, k, r =>
    if k0 = k then (k0, rs ++ [r]) :: rest
    else (k0, rs) :: insertBucket rest k r

/-- Grouping parameterised by the record-time to `Date` transformation
(used to state that `group` parses only the space-normalised time). -/
def groupVia (f : String → JSDate) (historyData : List RunHistoryRecord) : Buckets :=
  historyData.foldl (fun acc data => insertBucket acc (groupDateKey (f data.time)) data) []

/-- The grouping pass of `renderRunHistoryTable` (lines 48-59): for each
record, `new Date(data.time.replace(/ /g,'T'))`, derive the day-label and
push the record onto that label's list. -/
def group (historyData : List RunHistoryRecord) : Buckets :=
  groupVia (fun t => newDate (jsReplaceSpacesT t)) historyData

/-- The bucket stored under key `k` (empty when no such bucket). -/
def findBucket (bs : Buckets) (k : String) : List RunHistoryRecord :=
  ((bs.find? (fun b => b.1 = k)).map Prod.snd).getD []

/-- Total number of records across all buckets. -/
def totalCount (bs : Buckets) : Nat :=
  (bs.map (fun b => b.2.length)).sum

/-- The day-label `group` files a record under. -/
def recKey (r : RunHistoryRecord) : String :=
  groupDateKey (newDate (jsReplaceSpacesT r.time))

/-- Modelled from the spec: the detection-status enumeration
`CC_OBJECTS.DetectionStatus` of the external service API (the glossary's
finding lifecycle states: newly introduced, resolved, still unresolved,
reopened). -/
inductive DetectionStatus where
  | NEW : DetectionStatus
  | RESOLVED : DetectionStatus
  | UNRESOLVED : DetectionStatus
  | REOPENED : DetectionStatus
deriving DecidableEq

/-- Modelled from the spec: `stateConverter` of the detection-status filter
widget (whose source is not part of this repository snapshot) converts a
detection-status enumeration value to the state value the filter stores. -/
def stateConverter : DetectionStatus → String
  | .NEW => "New"
  | .RESOLVED => "Resolved"
  | .UNRESOLVED => "Unresolved"
  | .REOPENED => "Reopened"

/-- The capability surface of `this.bugFilterView` as `onRunHistoryClick`
sees it: `clearAll` and `notifyAll` always exist on the view itself, the
four filter widgets are properties that may be absent. -/
structure FilterView where
  hasRunNameFilter : Bool
  hasDetectionStatusFilter : Bool
  hasDetectionDateFilter : Bool
  hasRunHistoryTagFilter : Bool
deriving DecidableEq

/-- One observable effect of `onRunHistoryClick` on its collaborators. -/
inductive FilterEvent where
  | clearAll : FilterEvent
  | selectRunName : String → FilterEvent
  | selectDetectionStatus : String → FilterEvent
  | initFixedDateInterval : String → FilterEvent
  | selectTag : String → FilterEvent
  | notifyAll : FilterEvent
  | setSubtabNull : FilterEvent
deriving DecidableEq

/-- Events that set a filter predicate (as opposed to the reset, the
broadcast and the navigation update). -/
def isPredicateEvent : FilterEvent → Bool
  | .selectRunName _ => true
  | .selectDetectionStatus _ => true
  | .initFixedDateInterval _ => true
  | .selectTag _ => true
  | _ => false

/-- JS truthiness of `item.versionTag`: `undefined`, `null` and the empty
string are falsy. -/
def jsTruthy : Option String → Bool
  | none => false
  | some s => !(s == "")

/-- `_formatDate` (lines 142-154).  The two `Array.join` calls are written
as the string concatenations they denote.  Note the source pads month and
day to two digits but joins hours, minutes and seconds unpadded, and turns
a non-zero millisecond field into a bare `+ 1` on the seconds number. -/
def formatDate (date : JSDate) : String :=
  (JSDate.getFullYear date).render ++ "-" ++
    ((if ((JSDate.getMonth date).addNum 1).gtNum 9 then "" else "0") ++
      ((JSDate.getMonth date).addNum 1).render) ++ "-" ++
    ((if (JSDate.getDate date).gtNum 9 then "" else "0") ++
      (JSDate.getDate date).render) ++
  " " ++
  (JSDate.getHours date).render ++ ":" ++
  (JSDate.getMinutes date).render ++ ":" ++
  ((JSDate.getSeconds date).addNum
      (if (JSDate.getMilliseconds date).gtNum 0 then 1 else 0)).render

/-- `onRunHistoryClick` (lines 113-140) as a trace of collaborator effects.
Accessing a method of an absent (non-guarded) filter widget is the JS
`TypeError`, modelled as `Except.error`; only `_runNameFilter` is guarded
by an `if` in the source. -/
def onRunHistoryClick (filter : FilterView) (item : RunHistoryRecord) :
    Except String (List FilterEvent) :=
  let evClear := [FilterEvent.clearAll]
  let evRun :=
    if filter.hasRunNameFilter then evClear ++ [FilterEvent.selectRunName item.runName]
    else evClear
  if !(jsTruthy item.versionTag) then
    if !filter.hasDetectionStatusFilter then
      .error "TypeError: _detectionStatusFilter is undefined"
    else
      let evSt := evRun ++
        ([DetectionStatus.NEW, DetectionStatus.UNRESOLVED, DetectionStatus.REOPENED].map
          (fun status => FilterEvent.selectDetectionStatus (stateConverter status)))
      if !filter.hasDetectionDateFilter then
        .error "TypeError: _detectionDateFilter is undefined"
      else
        let date := newDate (jsReplaceSpacesT item.time)
        let evDt := evSt ++ [FilterEvent.initFixedDateInterval (formatDate date)]
        .ok (evDt ++ [FilterEvent.notifyAll, FilterEvent.setSubtabNull])
  else
    if !filter.hasRunHistoryTagFilter then
      .error "TypeError: _runHistoryTagFilter is undefined"
    else
      .ok (evRun ++
        [FilterEvent.selectTag (item.runName ++ ":" ++ (item.versionTag.getD ""))] ++
        [FilterEvent.notifyAll, FilterEvent.setSubtabNull])

/-- A filter view exposing every capability (the surface the spec's
external-interface section describes). -/
def fullFilter : FilterView :=
  { hasRunNameFilter := true, hasDetectionStatusFilter := true,
    hasDetectionDateFilter := true, hasRunHistoryTagFilter := true }

/-- Zero-padding to two digits, as the spec's formatting contract words it. -/
def zeroPad2 (n : Nat) : String :=
  if n < 10 then "0" ++ Nat.repr n else Nat.repr n

/-- Modelled from the spec: the date rendering the specification
prescribes — `YYYY-MM-DD HH:MM:SS` with month one-based, every one of
month, day, hours, minutes, seconds zero-padded to two digits, and the
seconds rounded up by one on a non-zero sub-second component with the
carry propagating into minutes and hours. -/
def formatDateSpec (d : DateTime) : String :=
  Nat.repr d.year ++ "-" ++ zeroPad2 (d.month + 1) ++ "-" ++ zeroPad2 d.day ++ " " ++
    zeroPad2 ((d.hours + (d.minutes + (d.seconds + (if 0 < d.milliseconds then 1 else 0)) / 60) / 60) % 24) ++ ":" ++
    zeroPad2 ((d.minutes + (d.seconds + (if 0 < d.milliseconds then 1 else 0)) / 60) % 60) ++ ":" ++
    zeroPad2 ((d.seconds + (if 0 < d.milliseconds then 1 else 0)) % 60)

/-- The text after the last colon of a string: the seconds field of a
`HH:MM:SS`-shaped rendering. -/
def lastColonField (s : String) : String :=
  ⟨(s.data.reverse.takeWhile (fun c => c ≠ ':')).reverse⟩

theorem digitChar_ne_colon (m : Nat) : Nat.digitChar m ≠ ':' := by
  rcases Nat.lt_or_ge m 16 with h | h
  · interval_cases m <;> decide
  · simp only [Nat.digitChar]
    repeat rw [if_neg (by omega)]
    decide

theorem toDigitsCore_mem (b : Nat) (f : Nat) :
    ∀ (n : Nat) (ds : List Char) (c : Char), c ∈ Nat.toDigitsCore b f n ds →
      c ∈ ds ∨ ∃ m, c = Nat.digitChar m := by
  induction f with
  | zero => intro n ds c h; exact .inl h
  | succ f ih =>
    intro n ds c h
    unfold Nat.toDigitsCore at h
    dsimp only at h
    split at h
    · rcases List.mem_cons.mp h with h1 | h1
      · exact .inr ⟨n % b, h1⟩
      · exact .inl h1
    · rcases ih _ _ _ h with h1 | h1
      · rcases List.mem_cons.mp h1 with h2 | h2
        · exact .inr ⟨n % b, h2⟩
        · exact .inl h2
      · exact .inr h1

theorem repr_no_colon (n : Nat) : ':' ∉ (Nat.repr n).data := by
  intro h
  have h1 : (':' : Char) ∈ Nat.toDigitsCore 10 (n + 1) n [] := h
  rcases toDigitsCore_mem 10 (n + 1) n [] ':' h1 with h2 | ⟨m, h2⟩
  · exact List.not_mem_nil _ h2
  · exact digitChar_ne_colon m h2.symm

theorem takeWhile_all_append (p : Char → Bool) (l1 : List Char) (x : Char)
    (l2 : List Char) (h1 : ∀ c ∈ l1, p c = true) (h2 : p x = false) :
    (l1 ++ x :: l2).takeWhile p = l1 := by
  induction l1 with
  | nil =>
    simp [List.takeWhile_cons, h2]
  | cons a l ih =>
    have ha : p a = true := h1 a (List.mem_cons_self a l)
    rw [List.cons_append, List.takeWhile_cons_of_pos ha,
        ih (fun c hc => h1 c (List.mem_cons_of_mem a hc))]

theorem lastColonField_append (a b : String) (h : ':' ∉ b.data) :
    lastColonField (a ++ ":" ++ b) = b := by
  have hdata : (a ++ ":" ++ b).data = a.data ++ ':' :: b.data := by
    rw [String.data_append, String.data_append, List.append_assoc]
    rfl
  have htw : (b.data.reverse ++ ':' :: a.data.reverse).takeWhile
      (fun c => decide (c ≠ ':')) = b.data.reverse := by
    apply takeWhile_all_append
    · intro c hc
      simp only [decide_eq_true_eq]
      intro hEq
      exact h (hEq ▸ List.mem_reverse.mp hc)
    · simp
  unfold lastColonField
  rw [hdata, List.reverse_append, List.reverse_cons, List.append_assoc,
      List.singleton_append, htw, List.reverse_reverse]

theorem insertBucket_totalCount (bs : Buckets) (k : String) (r : RunHistoryRecord) :
    totalCount (insertBucket bs k r) = totalCount bs + 1 := by
  induction bs with
  | nil => simp [insertBucket, totalCount]
  | cons b rest ih =>
    obtain ⟨k0, rs⟩ := b
    by_cases hk : k0 = k
    · simp [insertBucket, hk, totalCount]
      omega
    · simp only [insertBucket, if_neg hk]
      simp only [totalCount, List.map_cons, List.sum_cons] at ih ⊢
      omega

theorem groupVia_totalCount_aux (f : String → JSDate)
    (records : List RunHistoryRecord) :
    ∀ acc : Buckets,
      totalCount (records.foldl
        (fun acc data => insertBucket acc (groupDateKey (f data.time)) data) acc) =
      totalCount acc + records.length := by
  induction records with
  | nil => intro acc; simp
  | cons r rest ih =>
    intro acc
    simp only [List.foldl_cons, List.length_cons]
    rw [ih (insertBucket acc (groupDateKey (f r.time)) r),
        insertBucket_totalCount]
    omega

theorem insertBucket_findBucket (bs : Buckets) (k kq : String)
    (r : RunHistoryRecord) :
    findBucket (insertBucket bs k r) kq =
      findBucket bs kq ++ (if k = kq then [r] else []) := by
  induction bs with
  | nil =>
    by_cases hk : k = kq
    · simp [insertBucket, findBucket, List.find?, hk]
    · simp [insertBucket, findBucket, List.find?, hk]
  | cons b rest ih =>
    obtain ⟨k0, rs⟩ := b
    by_cases h0 : k0 = k
    · subst h0
      by_cases hq : k0 = kq
      · subst hq
        simp [insertBucket, findBucket, List.find?]
      · simp [insertBucket, findBucket, List.find?, hq]
    · by_cases hq : k0 = kq
      · subst hq
        have hkq : ¬ k = k0 := fun h => h0 h.symm
        simp [insertBucket, findBucket, List.find?, h0, hkq]
      · simp only [insertBucket, if_neg h0]
        simp only [findBucket, List.find?, decide_eq_true_eq] at ih ⊢
        simp only [if_neg hq, decide_eq_false hq]
        exact ih

theorem groupVia_findBucket_aux (f : String → JSDate)
    (records : List RunHistoryRecord) :
    ∀ (acc : Buckets) (k : String),
      findBucket (records.foldl
        (fun acc data => insertBucket acc (groupDateKey (f data.time)) data) acc) k =
      findBucket acc k ++
        records.filter (fun r => groupDateKey (f r.time) = k) := by
  induction records with
  | nil => intro acc k; simp
  | cons r rest ih =>
    intro acc k
    simp only [List.foldl_cons]
    rw [ih]
    rw [insertBucket_findBucket]
    by_cases hk : groupDateKey (f r.time) = k
    · simp [List.filter_cons, hk]
    · simp [List.filter_cons, hk]

theorem group_findBucket (records : List RunHistoryRecord) (k : String) :
    findBucket (group records) k = records.filter (fun r => recKey r = k) := by
  have h := groupVia_findBucket_aux (fun t => newDate (jsReplaceSpacesT t)) records [] k
  simpa [group, groupVia, findBucket, recKey] using h

theorem zeroPad2_eq (n : Nat) :
    zeroPad2 n = (if 9 < n then "" else "0") ++ Nat.repr n := by
  by_cases h : n < 10
  · rw [zeroPad2, if_pos h, if_neg (by omega)]
  · rw [zeroPad2, if_neg h, if_pos (by omega)]
    rfl

theorem zeroPad2_length : ∀ n < 100, (zeroPad2 n).length = 2 := by decide

theorem formatDate_some (d : DateTime) :
    formatDate (some d) =
      Nat.repr d.year ++ "-" ++ zeroPad2 (d.month + 1) ++ "-" ++ zeroPad2 d.day
        ++ " " ++ Nat.repr d.hours ++ ":" ++ Nat.repr d.minutes ++ ":" ++
        Nat.repr (d.seconds + (if 0 < d.milliseconds then 1 else 0)) := by
  simp only [formatDate, JSDate.getFullYear, JSDate.getMonth, JSDate.getDate,
    JSDate.getHours, JSDate.getMinutes, JSDate.getSeconds,
    JSDate.getMilliseconds, JSNum.addNum, JSNum.gtNum, JSNum.render,
    zeroPad2_eq, decide_eq_true_eq]

theorem click_inc_run (f : FilterView) (item : RunHistoryRecord)
    (hrn : f.hasRunNameFilter = true) (hds : f.hasDetectionStatusFilter = true)
    (hdd : f.hasDetectionDateFilter = true)
    (htv : jsTruthy item.versionTag = false) :
    onRunHistoryClick f item = .ok
      [FilterEvent.clearAll, FilterEvent.selectRunName item.runName,
       FilterEvent.selectDetectionStatus (stateConverter DetectionStatus.NEW),
       FilterEvent.selectDetectionStatus (stateConverter DetectionStatus.UNRESOLVED),
       FilterEvent.selectDetectionStatus (stateConverter DetectionStatus.REOPENED),
       FilterEvent.initFixedDateInterval (formatDate (newDate (jsReplaceSpacesT item.time))),
       FilterEvent.notifyAll, FilterEvent.setSubtabNull] := by
  simp [onRunHistoryClick, hrn, hds, hdd, htv]

theorem click_inc_norun (f : FilterView) (item : RunHistoryRecord)
    (hrn : f.hasRunNameFilter = false) (hds : f.hasDetectionStatusFilter = true)
    (hdd : f.hasDetectionDateFilter = true)
    (htv : jsTruthy item.versionTag = false) :
    onRunHistoryClick f item = .ok
      [FilterEvent.clearAll,
       FilterEvent.selectDetectionStatus (stateConverter DetectionStatus.NEW),
       FilterEvent.selectDetectionStatus (stateConverter DetectionStatus.UNRESOLVED),
       FilterEvent.selectDetectionStatus (stateConverter DetectionStatus.REOPENED),
       FilterEvent.initFixedDateInterval (formatDate (newDate (jsReplaceSpacesT item.time))),
       FilterEvent.notifyAll, FilterEvent.setSubtabNull] := by
  simp [onRunHistoryClick, hrn, hds, hdd, htv]

theorem click_snap_run (f : FilterView) (item : RunHistoryRecord)
    (hrn : f.hasRunNameFilter = true) (htg : f.hasRunHistoryTagFilter = true)
    (htv : jsTruthy item.versionTag = true) :
    onRunHistoryClick f item = .ok
      [FilterEvent.clearAll, FilterEvent.selectRunName item.runName,
       FilterEvent.selectTag (item.runName ++ ":" ++ (item.versionTag.getD "")),
       FilterEvent.notifyAll, FilterEvent.setSubtabNull] := by
  simp [onRunHistoryClick, hrn, htg, htv]

theorem click_snap_norun (f : FilterView) (item : RunHistoryRecord)
    (hrn : f.hasRunNameFilter = false) (htg : f.hasRunHistoryTagFilter = true)
    (htv : jsTruthy item.versionTag = true) :
    onRunHistoryClick f item = .ok
      [FilterEvent.clearAll,
       FilterEvent.selectTag (item.runName ++ ":" ++ (item.versionTag.getD "")),
       FilterEvent.notifyAll, FilterEvent.setSubtabNull] := by
  simp [onRunHistoryClick, hrn, htg, htv]

theorem click_err_status (f : FilterView) (item : RunHistoryRecord)
    (hds : f.hasDetectionStatusFilter = false)
    (htv : jsTruthy item.versionTag = false) :
    onRunHistoryClick f item =
      .error "TypeError: _detectionStatusFilter is undefined" := by
  simp [onRunHistoryClick, hds, htv]

theorem click_err_date (f : FilterView) (item : RunHistoryRecord)
    (hds : f.hasDetectionStatusFilter = true)
    (hdd : f.hasDetectionDateFilter = false)
    (htv : jsTruthy item.versionTag = false) :
    onRunHistoryClick f item =
      .error "TypeError: _detectionDateFilter is undefined" := by
  simp [onRunHistoryClick, hds, hdd, htv]

theorem click_err_tag (f : FilterView) (item : RunHistoryRecord)
    (htg : f.hasRunHistoryTagFilter = false)
    (htv : jsTruthy item.versionTag = true) :
    onRunHistoryClick f item =
      .error "TypeError: _runHistoryTagFilter is undefined" := by
  simp [onRunHistoryClick, htg, htv]

/-- C1 counterexample: on the spec's own snapshot scenario (runName `acme`,
versionTag `v1.2`) the click handler sets TWO filter predicates — the
run-name predicate and the composite tag — not exactly one. -/
theorem claim_c1_counterexample :
    onRunHistoryClick fullFilter
      { runId := 0, runName := "acme", time := "2024-06-05 10:15:30.500",
        user := "admin", versionTag := some "v1.2", checkCommand := none } =
      .ok [FilterEvent.clearAll, FilterEvent.selectRunName "acme",
           FilterEvent.selectTag "acme:v1.2",
           FilterEvent.notifyAll, FilterEvent.setSubtabNull] ∧
    ([FilterEvent.clearAll, FilterEvent.selectRunName "acme",
      FilterEvent.selectTag "acme:v1.2",
      FilterEvent.notifyAll, FilterEvent.setSubtabNull].filter
        isPredicateEvent).length ≠ 1 :=
  ⟨rfl, by decide⟩

/-- C1 (amended): for a record whose versionTag is present (non-empty), the
click handler sets the composite tag selector `runName:versionTag` AND,
since the filter surface has the run-name capability, the run-name
predicate — and no detection-status or detection-date predicate. -/
theorem claim_c1_snapshot_predicates (f : FilterView) (item : RunHistoryRecord)
    (tg : String) (hrn : f.hasRunNameFilter = true)
    (htg : f.hasRunHistoryTagFilter = true)
    (hv : item.versionTag = some tg) (hne : tg ≠ "") :
    onRunHistoryClick f item = .ok
      [FilterEvent.clearAll, FilterEvent.selectRunName item.runName,
       FilterEvent.selectTag (item.runName ++ ":" ++ tg),
       FilterEvent.notifyAll, FilterEvent.setSubtabNull] := by
  have htv : jsTruthy item.versionTag = true := by
    rw [hv]
    simp [jsTruthy, hne]
  rw [click_snap_run f item hrn htg htv, hv]
  rfl

/-- C1 witness: the spec's snapshot scenario record under the full filter
surface. -/
theorem claim_c1_witness :
    onRunHistoryClick fullFilter
      { runId := 0, runName := "acme", time := "2024-06-05 10:15:30.500",
        user := "admin", versionTag := some "v1.2", checkCommand := none } =
      .ok [FilterEvent.clearAll, FilterEvent.selectRunName "acme",
           FilterEvent.selectTag "acme:v1.2",
           FilterEvent.notifyAll, FilterEvent.setSubtabNull] :=
  claim_c1_snapshot_predicates fullFilter
    { runId := 0, runName := "acme", time := "2024-06-05 10:15:30.500",
      user := "admin", versionTag := some "v1.2", checkCommand := none }
    "v1.2" rfl rfl rfl (by decide)

/-- C2 counterexample: a source time of 10:15:59.900 renders with seconds
field `60` — the carry does NOT propagate into the minutes, contrary to
the claim's `…:59:900ms → …:(minute+1):00`. -/
theorem claim_c2_counterexample :
    formatDate (some { year := 2024, month := 5, day := 5, hours := 10, minutes := 15, seconds := 59, milliseconds := 900 }) =
        "2024-06-05 10:15:60" ∧
    formatDate (some { year := 2024, month := 5, day := 5, hours := 10, minutes := 15, seconds := 59, milliseconds := 900 }) ≠
      formatDateSpec { year := 2024, month := 5, day := 5, hours := 10, minutes := 15, seconds := 59, milliseconds := 900 } :=
  ⟨rfl, by decide⟩

/-- C2 (amended): the seconds field of the rendered date string is the
source seconds unchanged when the sub-second component is zero, and the
plain number source-seconds + 1 when it is non-zero, with NO carry into
minutes or hours (seconds 59 with non-zero milliseconds renders as `60`). -/
theorem claim_c2_seconds_field (d : DateTime) :
    lastColonField (formatDate (some d)) =
      Nat.repr (d.seconds + (if 0 < d.milliseconds then 1 else 0)) := by
  rw [formatDate_some]
  exact lastColonField_append _ _ (repr_no_colon _)

/-- C3 counterexample: a time of 05:05:05 renders as `2024-06-05 5:5:5` —
the hour, minute and second fields are NOT zero-padded to two digits. -/
theorem claim_c3_counterexample :
    formatDate (some { year := 2024, month := 5, day := 5, hours := 5, minutes := 5, seconds := 5, milliseconds := 0 }) =
        "2024-06-05 5:5:5" ∧
    formatDate (some { year := 2024, month := 5, day := 5, hours := 5, minutes := 5, seconds := 5, milliseconds := 0 }) ≠
      formatDateSpec { year := 2024, month := 5, day := 5, hours := 5, minutes := 5, seconds := 5, milliseconds := 0 } :=
  ⟨rfl, by decide⟩

/-- C3 (amended): the serialized date has the form
`YYYY-M'-D' H:M:S` where ONLY the one-based month and the day are
zero-padded to two digits; the hour, minute and second fields are rendered
as plain unpadded numbers. -/
theorem claim_c3_padding (d : DateTime) (hm : d.month ≤ 11) (hd : d.day ≤ 31) :
    formatDate (some d) =
      Nat.repr d.year ++ "-" ++ zeroPad2 (d.month + 1) ++ "-" ++ zeroPad2 d.day
        ++ " " ++ Nat.repr d.hours ++ ":" ++ Nat.repr d.minutes ++ ":" ++
        Nat.repr (d.seconds + (if 0 < d.milliseconds then 1 else 0)) ∧
      (zeroPad2 (d.month + 1)).length = 2 ∧ (zeroPad2 d.day).length = 2 :=
  ⟨formatDate_some d, zeroPad2_length _ (by omega), zeroPad2_length _ (by omega)⟩

/-- C3 witness: the spec's incremental scenario timestamp. -/
theorem claim_c3_witness :
    formatDate (some { year := 2024, month := 5, day := 5, hours := 10, minutes := 15, seconds := 30, milliseconds := 0 }) =
        "2024-06-05 10:15:30" ∧
    (zeroPad2 6).length = 2 ∧ (zeroPad2 5).length = 2 := by
  have h := claim_c3_padding { year := 2024, month := 5, day := 5, hours := 10, minutes := 15, seconds := 30, milliseconds := 0 }
    (by decide) (by decide)
  exact ⟨h.1.trans (by decide), h.2.1, h.2.2⟩

/-- C4 counterexample: with the unparseable time `not a date` and no
versionTag, the projection does NOT fail — it returns the full Incremental
trace, with every predicate applied and a `NaN`-bearing date string. -/
theorem claim_c4_counterexample :
    onRunHistoryClick fullFilter
      { runId := 0, runName := "acme", time := "not a date",
        user := "admin", versionTag := none, checkCommand := none } =
      .ok [FilterEvent.clearAll, FilterEvent.selectRunName "acme",
           FilterEvent.selectDetectionStatus "New",
           FilterEvent.selectDetectionStatus "Unresolved",
           FilterEvent.selectDetectionStatus "Reopened",
           FilterEvent.initFixedDateInterval "NaN-0NaN-0NaN NaN:NaN:NaN",
           FilterEvent.notifyAll, FilterEvent.setSubtabNull] ∧
    parseDateTime (jsReplaceSpacesT "not a date") = none :=
  ⟨rfl, rfl⟩

/-- C4 (amended): a record whose time cannot be parsed never makes the
projection fail.  The Incremental variant applies ALL of its filter state
— run name, the three detection statuses, and a detection-date predicate
whose string is the Invalid-Date rendering `NaN-0NaN-0NaN NaN:NaN:NaN` —
and the Snapshot variant ignores the time entirely and succeeds. -/
theorem claim_c4_unparseable_time :
    (∀ (f : FilterView) (item : RunHistoryRecord),
      f.hasRunNameFilter = true → f.hasDetectionStatusFilter = true →
      f.hasDetectionDateFilter = true →
      jsTruthy item.versionTag = false →
      parseDateTime (jsReplaceSpacesT item.time) = none →
      onRunHistoryClick f item = .ok
        [FilterEvent.clearAll, FilterEvent.selectRunName item.runName,
         FilterEvent.selectDetectionStatus (stateConverter DetectionStatus.NEW),
         FilterEvent.selectDetectionStatus (stateConverter DetectionStatus.UNRESOLVED),
         FilterEvent.selectDetectionStatus (stateConverter DetectionStatus.REOPENED),
         FilterEvent.initFixedDateInterval "NaN-0NaN-0NaN NaN:NaN:NaN",
         FilterEvent.notifyAll, FilterEvent.setSubtabNull]) ∧
    (∀ (f : FilterView) (item : RunHistoryRecord),
      f.hasRunHistoryTagFilter = true → jsTruthy item.versionTag = true →
      ∃ tr, onRunHistoryClick f item = .ok tr) := by
  constructor
  · intro f item hrn hds hdd htv hbad
    rw [click_inc_run f item hrn hds hdd htv]
    have hnone : newDate (jsReplaceSpacesT item.time) = none := hbad
    rw [hnone]
    rfl
  · intro f item htg htv
    by_cases hrn : f.hasRunNameFilter = true
    · exact ⟨_, click_snap_run f item hrn htg htv⟩
    · have hrn2 : f.hasRunNameFilter = false := by
        revert hrn
        cases f.hasRunNameFilter <;> simp
      exact ⟨_, click_snap_norun f item hrn2 htg htv⟩

/-- C4 witness: the Incremental part at an unparseable time, and the
Snapshot part at a record whose time is equally unparseable. -/
theorem claim_c4_witness :
    onRunHistoryClick fullFilter
      { runId := 1, runName := "run", time := "garbage",
        user := "u", versionTag := none, checkCommand := none } =
      .ok [FilterEvent.clearAll, FilterEvent.selectRunName "run",
           FilterEvent.selectDetectionStatus "New",
           FilterEvent.selectDetectionStatus "Unresolved",
           FilterEvent.selectDetectionStatus "Reopened",
           FilterEvent.initFixedDateInterval "NaN-0NaN-0NaN NaN:NaN:NaN",
           FilterEvent.notifyAll, FilterEvent.setSubtabNull] ∧
    (∃ tr, onRunHistoryClick fullFilter
      { runId := 2, runName := "run", time := "garbage",
        user := "u", versionTag := some "v1", checkCommand := none } = .ok tr) := by
  constructor
  · exact claim_c4_unparseable_time.1 fullFilter
      { runId := 1, runName := "run", time := "garbage",
        user := "u", versionTag := none, checkCommand := none }
      rfl rfl rfl rfl (by decide)
  · exact claim_c4_unparseable_time.2 fullFilter
      { runId := 2, runName := "run", time := "garbage",
        user := "u", versionTag := some "v1", checkCommand := none }
      rfl (by decide)

/-- C5: every successful projection first resets the filter state, then
applies only predicate-setting effects, then broadcasts exactly once, and
finally clears the secondary-view selector — in that strict order. -/
theorem claim_c5_effect_order (filter : FilterView) (item : RunHistoryRecord)
    (tr : List FilterEvent) (h : onRunHistoryClick filter item = .ok tr) :
    ∃ preds, tr = FilterEvent.clearAll ::
        (preds ++ [FilterEvent.notifyAll, FilterEvent.setSubtabNull]) ∧
      (∀ e ∈ preds, isPredicateEvent e = true) ∧
      List.countP (fun e => decide (e = FilterEvent.notifyAll)) tr = 1 := by
  by_cases htv : jsTruthy item.versionTag = true
  · by_cases htg : filter.hasRunHistoryTagFilter = true
    · by_cases hrn : filter.hasRunNameFilter = true
      · rw [click_snap_run filter item hrn htg htv] at h
        injection h with h
        subst h
        refine ⟨[FilterEvent.selectRunName item.runName,
          FilterEvent.selectTag (item.runName ++ ":" ++ (item.versionTag.getD ""))],
          rfl, ?_, rfl⟩
        intro e he
        simp only [List.mem_cons, List.not_mem_nil, or_false] at he
        rcases he with rfl | rfl <;> rfl
      · have hrn2 : filter.hasRunNameFilter = false := by
          revert hrn
          cases filter.hasRunNameFilter <;> simp
        rw [click_snap_norun filter item hrn2 htg htv] at h
        injection h with h
        subst h
        refine ⟨[FilterEvent.selectTag (item.runName ++ ":" ++ (item.versionTag.getD ""))],
          rfl, ?_, rfl⟩
        intro e he
        simp only [List.mem_cons, List.not_mem_nil, or_false] at he
        rcases he with rfl
        rfl
    · have htg2 : filter.hasRunHistoryTagFilter = false := by
        revert htg
        cases filter.hasRunHistoryTagFilter <;> simp
      rw [click_err_tag filter item htg2 htv] at h
      exact absurd h (by simp)
  · have htv2 : jsTruthy item.versionTag = false := by
      revert htv
      cases jsTruthy item.versionTag <;> simp
    by_cases hds : filter.hasDetectionStatusFilter = true
    · by_cases hdd : filter.hasDetectionDateFilter = true
      · by_cases hrn : filter.hasRunNameFilter = true
        · rw [click_inc_run filter item hrn hds hdd htv2] at h
          injection h with h
          subst h
          refine ⟨[FilterEvent.selectRunName item.runName,
            FilterEvent.selectDetectionStatus (stateConverter DetectionStatus.NEW),
            FilterEvent.selectDetectionStatus (stateConverter DetectionStatus.UNRESOLVED),
            FilterEvent.selectDetectionStatus (stateConverter DetectionStatus.REOPENED),
            FilterEvent.initFixedDateInterval (formatDate (newDate (jsReplaceSpacesT item.time)))],
            rfl, ?_, rfl⟩
          intro e he
          simp only [List.mem_cons, List.not_mem_nil, or_false] at he
          rcases he with rfl | rfl | rfl | rfl | rfl <;> rfl
        · have hrn2 : filter.hasRunNameFilter = false := by
            revert hrn
            cases filter.hasRunNameFilter <;> simp
          rw [click_inc_norun filter item hrn2 hds hdd htv2] at h
          injection h with h
          subst h
          refine ⟨[FilterEvent.selectDetectionStatus (stateConverter DetectionStatus.NEW),
            FilterEvent.selectDetectionStatus (stateConverter DetectionStatus.UNRESOLVED),
            FilterEvent.selectDetectionStatus (stateConverter DetectionStatus.REOPENED),
            FilterEvent.initFixedDateInterval (formatDate (newDate (jsReplaceSpacesT item.time)))],
            rfl, ?_, rfl⟩
          intro e he
          simp only [List.mem_cons, List.not_mem_nil, or_false] at he
          rcases he with rfl | rfl | rfl | rfl <;> rfl
      · have hdd2 : filter.hasDetectionDateFilter = false := by
          revert hdd
          cases filter.hasDetectionDateFilter <;> simp
        rw [click_err_date filter item hds hdd2 htv2] at h
        exact absurd h (by simp)
    · have hds2 : filter.hasDetectionStatusFilter = false := by
        revert hds
        cases filter.hasDetectionStatusFilter <;> simp
      rw [click_err_status filter item hds2 htv2] at h
      exact absurd h (by simp)

/-- C5 witness: the effect order at a concrete incremental record. -/
theorem claim_c5_witness :
    ∃ preds, [FilterEvent.clearAll, FilterEvent.selectRunName "acme",
        FilterEvent.selectDetectionStatus "New",
        FilterEvent.selectDetectionStatus "Unresolved",
        FilterEvent.selectDetectionStatus "Reopened",
        FilterEvent.initFixedDateInterval "2024-06-05 10:15:30",
        FilterEvent.notifyAll, FilterEvent.setSubtabNull] =
        FilterEvent.clearAll ::
          (preds ++ [FilterEvent.notifyAll, FilterEvent.setSubtabNull]) ∧
      (∀ e ∈ preds, isPredicateEvent e = true) ∧
      List.countP (fun e => decide (e = FilterEvent.notifyAll))
        [FilterEvent.clearAll, FilterEvent.selectRunName "acme",
         FilterEvent.selectDetectionStatus "New",
         FilterEvent.selectDetectionStatus "Unresolved",
         FilterEvent.selectDetectionStatus "Reopened",
         FilterEvent.initFixedDateInterval "2024-06-05 10:15:30",
         FilterEvent.notifyAll, FilterEvent.setSubtabNull] = 1 :=
  claim_c5_effect_order fullFilter
    { runId := 0, runName := "acme", time := "2024-06-05 10:15:30",
      user := "admin", versionTag := none, checkCommand := none }
    _ rfl

/-- C6: grouping drops and duplicates nothing — for a non-empty input of
records with parseable times the record count summed over all day buckets
equals the input length. -/
theorem claim_c6_group_preserves_count (records : List RunHistoryRecord)
    (_hne : records ≠ [])
    (_hp : ∀ r ∈ records, (parseDateTime (jsReplaceSpacesT r.time)).isSome = true) :
    totalCount (group records) = records.length := by
  have h := groupVia_totalCount_aux (fun t => newDate (jsReplaceSpacesT t)) records []
  simpa [group, groupVia, totalCount] using h

/-- C6 witness: three records, two of them on the same day. -/
theorem claim_c6_witness :
    totalCount (group
      [{ runId := 1, runName := "a", time := "2024-06-05 10:15:30",
         user := "u", versionTag := none, checkCommand := none },
       { runId := 2, runName := "b", time := "2024-06-05 11:00:00",
         user := "u", versionTag := none, checkCommand := none },
       { runId := 3, runName := "c", time := "2024-06-06 09:00:00",
         user := "u", versionTag := none, checkCommand := none }]) = 3 :=
  claim_c6_group_preserves_count _ (by decide) (by decide)

/-- C7: every bucket of `group` is exactly the in-order sublist of input
records whose day-label equals the bucket's key (so relative input order
is preserved inside each bucket), and two records whose parsed times agree
on day-of-month, month and year get the same day-label, hence the same
bucket. -/
theorem claim_c7_same_day_same_bucket :
    (∀ (records : List RunHistoryRecord) (k : String),
        findBucket (group records) k =
          records.filter (fun r => recKey r = k)) ∧
    (∀ (r1 r2 : RunHistoryRecord) (d1 d2 : DateTime),
        parseDateTime (jsReplaceSpacesT r1.time) = some d1 →
        parseDateTime (jsReplaceSpacesT r2.time) = some d2 →
        d1.day = d2.day → d1.month = d2.month → d1.year = d2.year →
        recKey r1 = recKey r2) := by
  constructor
  · exact group_findBucket
  · intro r1 r2 d1 d2 h1 h2 hday hmon hyear
    unfold recKey groupDateKey newDate
    rw [h1, h2]
    simp [JSDate.getDate, JSDate.getMonth, JSDate.getFullYear, hday, hmon, hyear]

/-- C7 witness: two same-day records land in one bucket in input order. -/
theorem claim_c7_witness :
    findBucket (group
      [{ runId := 1, runName := "a", time := "2024-06-05 10:15:30",
         user := "u", versionTag := none, checkCommand := none },
       { runId := 2, runName := "b", time := "2024-06-05 11:00:00",
         user := "u", versionTag := none, checkCommand := none },
       { runId := 3, runName := "c", time := "2024-06-06 09:00:00",
         user := "u", versionTag := none, checkCommand := none }]) "5 June, 2024" =
      [{ runId := 1, runName := "a", time := "2024-06-05 10:15:30",
         user := "u", versionTag := none, checkCommand := none },
       { runId := 2, runName := "b", time := "2024-06-05 11:00:00",
         user := "u", versionTag := none, checkCommand := none }] ∧
    recKey { runId := 1, runName := "a", time := "2024-06-05 10:15:30",
             user := "u", versionTag := none, checkCommand := none } =
      recKey { runId := 2, runName := "b", time := "2024-06-05 11:00:00",
               user := "u", versionTag := none, checkCommand := none } := by
  constructor
  · rw [claim_c7_same_day_same_bucket.1]
    decide
  · exact claim_c7_same_day_same_bucket.2 _ _
      { year := 2024, month := 5, day := 5, hours := 10, minutes := 15, seconds := 30, milliseconds := 0 }
      { year := 2024, month := 5, day := 5, hours := 11, minutes := 0, seconds := 0, milliseconds := 0 }
      (by decide) (by decide) rfl rfl rfl

/-- C8: for a record without a (truthy) versionTag, under the full filter
surface, the click handler sets no tag predicate and sets exactly the
three Incremental predicates: the run name, the detection statuses NEW,
UNRESOLVED and REOPENED, and the single-instant detection date derived
from the record's time. -/
theorem claim_c8_incremental_predicates (f : FilterView) (item : RunHistoryRecord)
    (hrn : f.hasRunNameFilter = true) (hds : f.hasDetectionStatusFilter = true)
    (hdd : f.hasDetectionDateFilter = true)
    (htv : jsTruthy item.versionTag = false) :
    onRunHistoryClick f item = .ok
      [FilterEvent.clearAll, FilterEvent.selectRunName item.runName,
       FilterEvent.selectDetectionStatus (stateConverter DetectionStatus.NEW),
       FilterEvent.selectDetectionStatus (stateConverter DetectionStatus.UNRESOLVED),
       FilterEvent.selectDetectionStatus (stateConverter DetectionStatus.REOPENED),
       FilterEvent.initFixedDateInterval (formatDate (newDate (jsReplaceSpacesT item.time))),
       FilterEvent.notifyAll, FilterEvent.setSubtabNull] :=
  click_inc_run f item hrn hds hdd htv

/-- C8 witness: the spec's incremental scenario — runName `acme`,
time `2024-06-05 10:15:30`, no versionTag. -/
theorem claim_c8_witness :
    onRunHistoryClick fullFilter
      { runId := 0, runName := "acme", time := "2024-06-05 10:15:30",
        user := "admin", versionTag := none, checkCommand := none } =
      .ok [FilterEvent.clearAll, FilterEvent.selectRunName "acme",
           FilterEvent.selectDetectionStatus "New",
           FilterEvent.selectDetectionStatus "Unresolved",
           FilterEvent.selectDetectionStatus "Reopened",
           FilterEvent.initFixedDateInterval "2024-06-05 10:15:30",
           FilterEvent.notifyAll, FilterEvent.setSubtabNull] := by
  have h := claim_c8_incremental_predicates fullFilter
    { runId := 0, runName := "acme", time := "2024-06-05 10:15:30",
      user := "admin", versionTag := none, checkCommand := none }
    rfl rfl rfl rfl
  exact h.trans (by rfl)

theorem replaceSpaces_no_space (l : List Char) (h : ' ' ∉ l) :
    l.map (fun c => if c = ' ' then 'T' else c) = l := by
  induction l with
  | nil => rfl
  | cons a t ih =>
    have ha : a ≠ ' ' := fun hEq => h (by rw [hEq]; exact List.mem_cons_self _ _)
    simp only [List.map_cons, if_neg ha]
    rw [ih (fun hm => h (List.mem_cons_of_mem a hm))]

/-- C9: both `group` and the click handler parse the record time only
after replacing its spaces by the strict `T` separator — on a well-formed
`date time` string this turns exactly the separating space into `T` and
changes nothing else — and the `Date` each consumes is precisely
`parseDateTime` of that normalised string. -/
theorem claim_c9_normalize_before_parse :
    (∀ (dp tp : String), ' ' ∉ dp.data → ' ' ∉ tp.data →
        jsReplaceSpacesT (dp ++ " " ++ tp) = dp ++ "T" ++ tp) ∧
    (∀ records, group records =
        groupVia (fun t => (parseDateTime (jsReplaceSpacesT t) : JSDate)) records) ∧
    (∀ (f : FilterView) (item : RunHistoryRecord),
        f.hasDetectionStatusFilter = true → f.hasDetectionDateFilter = true →
        jsTruthy item.versionTag = false →
        ∃ pre, onRunHistoryClick f item = .ok (pre ++
          [FilterEvent.initFixedDateInterval
              (formatDate (parseDateTime (jsReplaceSpacesT item.time))),
           FilterEvent.notifyAll, FilterEvent.setSubtabNull])) := by
  refine ⟨?_, fun records => rfl, ?_⟩
  · intro dp tp h1 h2
    apply String.ext
    show ((dp ++ " " ++ tp).data.map (fun c => if c = ' ' then 'T' else c)) =
      (dp ++ "T" ++ tp).data
    rw [String.data_append, String.data_append, String.data_append,
        String.data_append, List.map_append, List.map_append,
        replaceSpaces_no_space _ h1, replaceSpaces_no_space _ h2]
    rfl
  · intro f item hds hdd htv
    by_cases hrn : f.hasRunNameFilter = true
    · refine ⟨[FilterEvent.clearAll, FilterEvent.selectRunName item.runName,
        FilterEvent.selectDetectionStatus (stateConverter DetectionStatus.NEW),
        FilterEvent.selectDetectionStatus (stateConverter DetectionStatus.UNRESOLVED),
        FilterEvent.selectDetectionStatus (stateConverter DetectionStatus.REOPENED)], ?_⟩
      rw [click_inc_run f item hrn hds hdd htv]
      rfl
    · have hrn2 : f.hasRunNameFilter = false := by
        revert hrn
        cases f.hasRunNameFilter <;> simp
      refine ⟨[FilterEvent.clearAll,
        FilterEvent.selectDetectionStatus (stateConverter DetectionStatus.NEW),
        FilterEvent.selectDetectionStatus (stateConverter DetectionStatus.UNRESOLVED),
        FilterEvent.selectDetectionStatus (stateConverter DetectionStatus.REOPENED)], ?_⟩
      rw [click_inc_norun f item hrn2 hds hdd htv]
      rfl

/-- C9 witness: the normalisation and both consumers at concrete inputs. -/
theorem claim_c9_witness :
    jsReplaceSpacesT ("2024-06-05" ++ " " ++ "10:15:30") =
        "2024-06-05" ++ "T" ++ "10:15:30" ∧
    group [{ runId := 1, runName := "a", time := "2024-06-05 10:15:30",
             user := "u", versionTag := none, checkCommand := none }] =
      groupVia (fun t => (parseDateTime (jsReplaceSpacesT t) : JSDate))
        [{ runId := 1, runName := "a", time := "2024-06-05 10:15:30",
           user := "u", versionTag := none, checkCommand := none }] ∧
    (∃ pre, onRunHistoryClick fullFilter
        { runId := 1, runName := "a", time := "2024-06-05 10:15:30",
          user := "u", versionTag := none, checkCommand := none } =
      .ok (pre ++
        [FilterEvent.initFixedDateInterval
            (formatDate (parseDateTime (jsReplaceSpacesT "2024-06-05 10:15:30"))),
         FilterEvent.notifyAll, FilterEvent.setSubtabNull])) :=
  ⟨claim_c9_normalize_before_parse.1 "2024-06-05" "10:15:30" (by decide) (by decide),
   claim_c9_normalize_before_parse.2.1 _,
   claim_c9_normalize_before_parse.2.2 fullFilter
     { runId := 1, runName := "a", time := "2024-06-05 10:15:30",
       user := "u", versionTag := none, checkCommand := none }
     rfl rfl rfl⟩

/-- C10: when the run-name capability is absent the projection still
succeeds — it performs the reset, every remaining predicate of the chosen
variant, the single broadcast and the secondary-view clear, skipping only
the run-name predicate — while the detection-status, detection-date and
tag capabilities are accessed unconditionally: absence of whichever one
the chosen variant uses makes the projection throw. -/
theorem claim_c10_runname_guard :
    (∀ (f : FilterView) (item : RunHistoryRecord),
      f.hasRunNameFilter = false → f.hasDetectionStatusFilter = true →
      f.hasDetectionDateFilter = true → f.hasRunHistoryTagFilter = true →
      onRunHistoryClick f item = .ok (FilterEvent.clearAll ::
        ((if jsTruthy item.versionTag then
            [FilterEvent.selectTag (item.runName ++ ":" ++ (item.versionTag.getD ""))]
          else
            [FilterEvent.selectDetectionStatus (stateConverter DetectionStatus.NEW),
             FilterEvent.selectDetectionStatus (stateConverter DetectionStatus.UNRESOLVED),
             FilterEvent.selectDetectionStatus (stateConverter DetectionStatus.REOPENED),
             FilterEvent.initFixedDateInterval
               (formatDate (newDate (jsReplaceSpacesT item.time)))]) ++
          [FilterEvent.notifyAll, FilterEvent.setSubtabNull]))) ∧
    (∀ (f : FilterView) (item : RunHistoryRecord),
      jsTruthy item.versionTag = false → f.hasDetectionStatusFilter = false →
      ∃ e, onRunHistoryClick f item = .error e) ∧
    (∀ (f : FilterView) (item : RunHistoryRecord),
      jsTruthy item.versionTag = false → f.hasDetectionStatusFilter = true →
      f.hasDetectionDateFilter = false →
      ∃ e, onRunHistoryClick f item = .error e) ∧
    (∀ (f : FilterView) (item : RunHistoryRecord),
      jsTruthy item.versionTag = true → f.hasRunHistoryTagFilter = false →
      ∃ e, onRunHistoryClick f item = .error e) := by
  refine ⟨?_, ?_, ?_, ?_⟩
  · intro f item hrn hds hdd htg
    by_cases htv : jsTruthy item.versionTag = true
    · rw [click_snap_norun f item hrn htg htv, htv]
      rfl
    · have htv2 : jsTruthy item.versionTag = false := by
        revert htv
        cases jsTruthy item.versionTag <;> simp
      rw [click_inc_norun f item hrn hds hdd htv2, htv2]
      rfl
  · intro f item htv hds
    exact ⟨_, click_err_status f item hds htv⟩
  · intro f item htv hds hdd
    exact ⟨_, click_err_date f item hds hdd htv⟩
  · intro f item htv htg
    exact ⟨_, click_err_tag f item htg htv⟩

/-- C10 witness: a filter surface without the run-name capability still
projects both variants, and each unguarded capability's absence throws. -/
theorem claim_c10_witness :
    onRunHistoryClick
      { hasRunNameFilter := false, hasDetectionStatusFilter := true,
        hasDetectionDateFilter := true, hasRunHistoryTagFilter := true }
      { runId := 0, runName := "acme", time := "2024-06-05 10:15:30",
        user := "admin", versionTag := none, checkCommand := none } =
      .ok [FilterEvent.clearAll,
           FilterEvent.selectDetectionStatus "New",
           FilterEvent.selectDetectionStatus "Unresolved",
           FilterEvent.selectDetectionStatus "Reopened",
           FilterEvent.initFixedDateInterval "2024-06-05 10:15:30",
           FilterEvent.notifyAll, FilterEvent.setSubtabNull] ∧
    (∃ e, onRunHistoryClick
      { hasRunNameFilter := true, hasDetectionStatusFilter := false,
        hasDetectionDateFilter := true, hasRunHistoryTagFilter := true }
      { runId := 0, runName := "acme", time := "2024-06-05 10:15:30",
        user := "admin", versionTag := none, checkCommand := none } = .error e) ∧
    (∃ e, onRunHistoryClick
      { hasRunNameFilter := true, hasDetectionStatusFilter := true,
        hasDetectionDateFilter := false, hasRunHistoryTagFilter := true }
      { runId := 0, runName := "acme", time := "2024-06-05 10:15:30",
        user := "admin", versionTag := none, checkCommand := none } = .error e) ∧
    (∃ e, onRunHistoryClick
      { hasRunNameFilter := true, hasDetectionStatusFilter := true,
        hasDetectionDateFilter := true, hasRunHistoryTagFilter := false }
      { runId := 0, runName := "acme", time := "2024-06-05 10:15:30",
        user := "admin", versionTag := some "v1", checkCommand := none } = .error e) := by
  refine ⟨?_, ?_, ?_, ?_⟩
  · have h := claim_c10_runname_guard.1
      { hasRunNameFilter := false, hasDetectionStatusFilter := true,
        hasDetectionDateFilter := true, hasRunHistoryTagFilter := true }
      { runId := 0, runName := "acme", time := "2024-06-05 10:15:30",
        user := "admin", versionTag := none, checkCommand := none }
      rfl rfl rfl rfl
    exact h.trans (by rfl)
  · exact claim_c10_runname_guard.2.1 _
      { runId := 0, runName := "acme", time := "2024-06-05 10:15:30",
        user := "admin", versionTag := none, checkCommand := none } rfl rfl
  · exact claim_c10_runname_guard.2.2.1 _
      { runId := 0, runName := "acme", time := "2024-06-05 10:15:30",
        user := "admin", versionTag := none, checkCommand := none } rfl rfl rfl
  · exact claim_c10_runname_guard.2.2.2 _
      { runId := 0, runName := "acme", time := "2024-06-05 10:15:30",
        user := "admin", versionTag := some "v1", checkCommand := none }
      (by decide) rfl
